import Mathlib

/-!
# Verification of the meta-ads backend's chat/analytics pipeline

Shallow embedding of the request-normalization and response-summarization
pipeline of the backend (chat keyword dispatch, campaign summarization and
recommendations, chart construction, ads-client error policy, and the
auth/meta route handlers), with theorems settling the specification claims.

Python semantics are modelled as follows: raised exceptions are `Except`
errors (or `Option.none` where only definedness matters), `dict.get` with a
default is a total field access, `dict[...]` on a possibly-missing key is an
`Option`-typed input, truthiness of an optional string is
`Option.isSome ∧ ¬ isEmpty`, and numeric values are `Int`/`Rat` (the source
manipulates ints and IEEE doubles whose values here are all exactly
representable decimals).
-/

namespace MetaAds

/-- `listContains needle hay` checks whether `needle` occurs as a contiguous
sublist of `hay`. -/
def listContains (needle : List Char) : List Char → Bool
  | [] => needle.isEmpty
  | c :: t => needle.isPrefixOf (c :: t) || listContains needle t

/-- Substring containment: Python's `needle in hay`. -/
def containsSub (hay needle : String) : Bool :=
  listContains needle.toList hay.toList

/-- Python's `str.lower()`, over the character list of the string. -/
def pyLower (s : String) : String :=
  String.mk (s.toList.map Char.toLower)

/-- Python truthiness of an optional string (`None` and `""` are falsy). -/
def truthyStr : Option String → Bool
  | none => false
  | some s => !s.isEmpty

/-- The upstream resource a chat message dispatches to
(`send_message`, `backend/app/api/chat/routes.py`). -/
inductive Resource where
  | accounts
  | campaigns
  | insights
  | adsets
  | ads
  | noData
deriving DecidableEq, Repr

/-- Keyword group for ad accounts (`send_message`, first branch). -/
def accountKeywords : List String := ["account", "accounts"]

/-- Keyword group for campaigns (`send_message`, second branch). -/
def campaignKeywords : List String := ["campaign", "campaigns"]

/-- Keyword group for insights/performance (`send_message`, third branch). -/
def insightKeywords : List String := ["insight", "performance", "spend", "trend"]

/-- Keyword group for ad sets (`send_message`, fourth branch). -/
def adsetKeywords : List String := ["adset", "ad set", "targeting"]

/-- Keyword group for ads (`send_message`, fifth branch). -/
def adKeywords : List String := ["ad", "ads", "creative"]

/-- `any(keyword in lower_message for keyword in kws)`. -/
def matchesGroup (lowerMessage : String) (kws : List String) : Bool :=
  kws.any (containsSub lowerMessage)

/-- The keyword dispatch of `send_message`: lowercase the message, then test
the keyword groups in source order (accounts, campaigns, insights, adsets,
ads) and take the first match. -/
def dispatch (userMessage : String) : Resource :=
  let lowerMessage := pyLower userMessage
  if matchesGroup lowerMessage accountKeywords then .accounts
  else if matchesGroup lowerMessage campaignKeywords then .campaigns
  else if matchesGroup lowerMessage insightKeywords then .insights
  else if matchesGroup lowerMessage adsetKeywords then .adsets
  else if matchesGroup lowerMessage adKeywords then .ads
  else .noData

/-! ## Data model (mock payload records of `meta_ads_integration.py`) -/

/-- An ad account record (`_mock_get_ad_accounts`). -/
structure Account where
  id : String
  name : String
  status : String
  currency : String
  timezone_name : String
deriving DecidableEq, Repr

/-- A campaign record with its metrics bundle (`_mock_get_campaigns`).
`daily_budget`, `lifetime_budget` and `spend` are integer minor-currency
units; `ctr` and `cpc` are exact decimals. -/
structure Campaign where
  id : String
  name : String
  status : String
  objective : String
  daily_budget : Int
  lifetime_budget : Int
  spend : Int
  impressions : Int
  clicks : Int
  ctr : Rat
  cpc : Rat
deriving DecidableEq, Repr

/-- A dated insight snapshot (`_mock_get_insights`). -/
structure Insight where
  date : String
  spend : Int
  impressions : Int
  clicks : Int
  ctr : Rat
  cpc : Rat
  cpm : Rat
deriving DecidableEq, Repr

/-- The targeting block of an ad set (`_mock_get_adsets`). -/
structure Targeting where
  age_min : Int
  age_max : Int
  genders : List Int
  countries : List String
deriving DecidableEq, Repr

/-- An ad-set record (`_mock_get_adsets`). -/
structure AdSet where
  id : String
  name : String
  status : String
  campaign_id : String
  daily_budget : Int
  lifetime_budget : Int
  targeting : Targeting
deriving DecidableEq, Repr

/-- The creative block of an ad (`_mock_get_ads`). -/
structure Creative where
  id : String
  title : String
  body : String
  image_url : String
deriving DecidableEq, Repr

/-- An ad record (`_mock_get_ads`). -/
structure Ad where
  id : String
  name : String
  status : String
  adset_id : String
  creative : Creative
deriving DecidableEq, Repr

/-- The constant payload of `_mock_get_ad_accounts`. -/
def mockAccounts : List Account :=
  [ { id := "act_123456789", name := "Main Ad Account", status := "ACTIVE",
      currency := "USD", timezone_name := "America/New_York" },
    { id := "act_987654321", name := "Secondary Account", status := "ACTIVE",
      currency := "USD", timezone_name := "America/Los_Angeles" } ]

/-- The constant payload of `_mock_get_campaigns`. -/
def mockCampaigns : List Campaign :=
  [ { id := "123456789", name := "Summer Sale Campaign", status := "ACTIVE",
      objective := "CONVERSIONS", daily_budget := 10000, lifetime_budget := 0,
      spend := 2450, impressions := 125000, clicks := 3200,
      ctr := 2.56, cpc := 0.77 },
    { id := "987654321", name := "Brand Awareness", status := "PAUSED",
      objective := "BRAND_AWARENESS", daily_budget := 5000, lifetime_budget := 0,
      spend := 1890, impressions := 89000, clicks := 1200,
      ctr := 1.35, cpc := 1.58 },
    { id := "456789123", name := "Lead Generation", status := "ACTIVE",
      objective := "LEAD_GENERATION", daily_budget := 7500, lifetime_budget := 0,
      spend := 3200, impressions := 156000, clicks := 4100,
      ctr := 2.63, cpc := 0.78 } ]

/-- The constant payload of `_mock_get_insights`. -/
def mockInsights : List Insight :=
  [ { date := "2024-01-01", spend := 100, impressions := 5000, clicks := 150,
      ctr := 3.0, cpc := 0.67, cpm := 20.0 },
    { date := "2024-01-02", spend := 120, impressions := 6000, clicks := 180,
      ctr := 3.0, cpc := 0.67, cpm := 20.0 },
    { date := "2024-01-03", spend := 110, impressions := 5500, clicks := 165,
      ctr := 3.0, cpc := 0.67, cpm := 20.0 },
    { date := "2024-01-04", spend := 130, impressions := 6500, clicks := 195,
      ctr := 3.0, cpc := 0.67, cpm := 20.0 },
    { date := "2024-01-05", spend := 140, impressions := 7000, clicks := 210,
      ctr := 3.0, cpc := 0.67, cpm := 20.0 } ]

/-- The constant payload of `_mock_get_adsets`. -/
def mockAdsets : List AdSet :=
  [ { id := "123456789", name := "Ad Set 1", status := "ACTIVE",
      campaign_id := "123456789", daily_budget := 5000, lifetime_budget := 0,
      targeting := { age_min := 25, age_max := 45, genders := [1, 2],
                     countries := ["US"] } } ]

/-- The constant payload of `_mock_get_ads`. -/
def mockAds : List Ad :=
  [ { id := "123456789", name := "Ad 1", status := "ACTIVE",
      adset_id := "123456789",
      creative := { id := "123456789", title := "Summer Sale - 50% Off!",
                    body := "Don't miss out on our biggest sale of the year",
                    image_url := "https://example.com/image.jpg" } } ]

/-! ## `call_mcp_tool` (`meta_ads_integration.py`) -/

/-- The parameter dictionary handed to `call_mcp_tool`; every key the call
sites supply. The mock implementations never read any of these fields. -/
structure McpParams where
  access_token : Option String
  account_id : Option String
  object_id : Option String
deriving DecidableEq, Repr

/-- Result of `call_mcp_tool`: one constructor per mock payload shape, plus
the `{"error": msg}` dictionary produced when the inner `ValueError` for an
unknown tool name is caught by the blanket `except`. -/
inductive McpResult where
  | accounts (l : List Account)
  | campaigns (l : List Campaign)
  | insights (l : List Insight)
  | adsets (l : List AdSet)
  | ads (l : List Ad)
  | error (msg : String)
deriving DecidableEq, Repr

/-- Whether a `call_mcp_tool` result is the error dictionary. -/
def McpResult.isError : McpResult → Bool
  | .error _ => true
  | _ => false

/-- `call_mcp_tool(tool_name, params)`: dispatch on the tool name to the
five constant mock payloads; an unknown name raises `ValueError`, which the
surrounding `try/except` converts to an error dictionary carrying the
exception's message. -/
def callMcpTool (toolName : String) (params : McpParams) : McpResult :=
  if toolName = "mcp_meta_ads_get_ad_accounts" then .accounts mockAccounts
  else if toolName = "mcp_meta_ads_get_campaigns" then .campaigns mockCampaigns
  else if toolName = "mcp_meta_ads_get_insights" then .insights mockInsights
  else if toolName = "mcp_meta_ads_get_adsets" then .adsets mockAdsets
  else if toolName = "mcp_meta_ads_get_ads" then .ads mockAds
  else .error ("Unknown MCP tool: " ++ toolName)

/-- The five tool names `call_mcp_tool` recognizes. -/
def recognizedTools : List String :=
  [ "mcp_meta_ads_get_ad_accounts", "mcp_meta_ads_get_campaigns",
    "mcp_meta_ads_get_insights", "mcp_meta_ads_get_adsets",
    "mcp_meta_ads_get_ads" ]

/-! ## Recommendations (`get_ai_recommendations`, `meta_ads_integration.py`) -/

/-- A generated advisory. The source emits formatted strings; this captures
the advisory kind together with everything the f-string interpolates (the
campaign's name and the triggering metric). -/
inductive Advisory where
  | lowCtr (name : String) (ctr : Rat)
  | spendReview (name : String) (spend : Int)
deriving DecidableEq, Repr

/-- The body of `get_ai_recommendations`' loop: the advisories one campaign
appends to the accumulator (low-CTR check first, then spend check). -/
def campaignAdvisories (c : Campaign) : List Advisory :=
  (if c.ctr < 1.5 then [Advisory.lowCtr c.name c.ctr] else []) ++
    (if c.spend > 2000 ∧ c.status = "ACTIVE" then
      [Advisory.spendReview c.name c.spend] else [])

/-- `get_ai_recommendations(campaign_data)`: iterate over the campaigns in
order, appending to `recommendations` a low-CTR advisory when `ctr < 1.5`
and a spend-review advisory when `spend > 2000 and status == "ACTIVE"`. -/
def getAiRecommendations (campaigns : List Campaign) : List Advisory :=
  campaigns.foldl
    (fun recommendations c =>
      let recommendations :=
        if c.ctr < 1.5 then
          recommendations ++ [Advisory.lowCtr c.name c.ctr]
        else recommendations
      let recommendations :=
        if c.spend > 2000 ∧ c.status = "ACTIVE" then
          recommendations ++ [Advisory.spendReview c.name c.spend]
        else recommendations
      recommendations)
    []

/-! ## Chart construction (`generate_chart_data`, `meta_ads_integration.py`) -/

/-- One dataset of a chart (label plus the numeric series). -/
structure ChartDataset where
  label : String
  data : List Rat
deriving DecidableEq, Repr

/-- A declarative chart: its type tag, axis labels and datasets. -/
structure ChartSpec where
  ctype : String
  labels : List String
  datasets : List ChartDataset
  title : String
deriving DecidableEq, Repr

/-- `generate_chart_data(data_type, data)`: a line chart of daily spend in
major units for `"spend_trend"`, a bar chart pairing a CTR% series with a
spend-in-major-units series for `"campaign_performance"`, and `None`
otherwise. `campaigns`/`insights` are the lists under the corresponding
keys of `data` (`dict.get` with default `[]`). -/
def generateChartData (dataType : String) (campaigns : List Campaign)
    (insights : List Insight) : Option ChartSpec :=
  if dataType = "spend_trend" then
    some { ctype := "line",
           labels := insights.map (·.date),
           datasets := [ { label := "Daily Spend ($)",
                           data := insights.map (fun i => (i.spend : Rat) / 100) } ],
           title := "Daily Ad Spend Trend" }
  else if dataType = "campaign_performance" then
    some { ctype := "bar",
           labels := campaigns.map (·.name),
           datasets := [ { label := "CTR (%)",
                           data := campaigns.map (·.ctr) },
                         { label := "Spend ($)",
                           data := campaigns.map (fun c => (c.spend : Rat) / 100) } ],
           title := "Campaign Performance Overview" }
  else none

/-! ## Summaries (`analyze_campaigns` in `chat/routes.py`;
`get_account_performance_summary` in `meta_integration.py`) -/

/-- Python's true division with its fault: `none` models the
`ZeroDivisionError` raised when the denominator is zero. -/
def pyDiv (a b : Rat) : Option Rat :=
  if b = 0 then none else some (a / b)

/-- The `avg_ctr` entry computed by `analyze_campaigns`:
`sum(c.get("ctr", 0) for c in campaigns) / len(campaigns)`, with no guard on
the empty list. -/
def analyzeAvgCtr (campaigns : List Campaign) : Option Rat :=
  pyDiv (campaigns.map (·.ctr)).sum (campaigns.length : Rat)

/-- The `analysis` dictionary of `analyze_campaigns`. `avg_ctr` is optional
because its division faults on an empty campaign list. -/
structure CampaignAnalysis where
  total_campaigns : Nat
  active_campaigns : Nat
  total_spend : Rat
  avg_ctr : Option Rat
deriving DecidableEq, Repr

/-- The analysis block built by `analyze_campaigns` from the fetched
campaign list. -/
def analyzeCampaigns (campaigns : List Campaign) : CampaignAnalysis :=
  { total_campaigns := campaigns.length,
    active_campaigns := (campaigns.filter (fun c => c.status = "ACTIVE")).length,
    total_spend := ((campaigns.map (·.spend)).sum : Rat) / 100,
    avg_ctr := analyzeAvgCtr campaigns }

/-- The summary dictionary of `get_account_performance_summary`. -/
structure PerformanceSummary where
  total_campaigns : Nat
  active_campaigns : Nat
  total_spend : Rat
  total_impressions : Int
  total_clicks : Int
  average_ctr : Rat
  average_cpc : Rat
deriving DecidableEq, Repr

/-- `get_account_performance_summary`: accumulate spend/impressions/clicks
over the ACTIVE campaigns, then derive averages, each guarded against a
zero denominator (`if total_impressions > 0`, `if total_clicks > 0`). -/
def accountPerformanceSummary (campaigns : List Campaign) : PerformanceSummary :=
  let active := campaigns.filter (fun c => c.status = "ACTIVE")
  let total_spend : Rat := ((active.map (·.spend)).sum : Int)
  let total_impressions : Int := (active.map (·.impressions)).sum
  let total_clicks : Int := (active.map (·.clicks)).sum
  { total_campaigns := campaigns.length,
    active_campaigns := active.length,
    total_spend := total_spend,
    total_impressions := total_impressions,
    total_clicks := total_clicks,
    average_ctr :=
      if total_impressions > 0 then
        (total_clicks : Rat) / (total_impressions : Rat) * 100
      else 0,
    average_cpc :=
      if total_clicks > 0 then total_spend / (total_clicks : Rat) else 0 }

/-! ## External Ads Client read operations (`meta_integration.py`)

Each read operation issues one upstream HTTP call inside `try/except`. The
upstream outcome is modelled as `Except Unit (Nat × Option (List α))`: a
raised exception (`Except.error`, covering transport failures and JSON
decoding), or a response with its status code and the optional `data` array
of its JSON body (`none` when the key is absent). -/

/-- An upstream HTTP outcome for a list-returning resource. -/
abbrev UpstreamList (α : Type) := Except Unit (Nat × Option (List α))

/-- An upstream read failed: the call raised, or returned non-200. -/
def upstreamFailed {α : Type} (r : UpstreamList α) : Prop :=
  r = .error () ∨ ∃ code payload, r = .ok (code, payload) ∧ code ≠ 200

/-- `get_ad_accounts`: on a 200 response return its `data` array (default
`[]`), on any other status return `[]`, on an exception return `[]`. -/
def getAdAccountsSvc (r : UpstreamList Account) : List Account :=
  match r with
  | .ok (code, payload) => if code = 200 then payload.getD [] else []
  | .error _ => []

/-- `get_campaigns`: same non-raising shape as `get_ad_accounts`. -/
def getCampaignsSvc (r : UpstreamList Campaign) : List Campaign :=
  match r with
  | .ok (code, payload) => if code = 200 then payload.getD [] else []
  | .error _ => []

/-- `get_insights`' result handling: same non-raising shape. -/
def getInsightsSvcResult (r : UpstreamList Insight) : List Insight :=
  match r with
  | .ok (code, payload) => if code = 200 then payload.getD [] else []
  | .error _ => []

/-- `get_ad_sets`: same non-raising shape. -/
def getAdSetsSvc (r : UpstreamList AdSet) : List AdSet :=
  match r with
  | .ok (code, payload) => if code = 200 then payload.getD [] else []
  | .error _ => []

/-- `get_ads`: same non-raising shape. -/
def getAdsSvc (r : UpstreamList Ad) : List Ad :=
  match r with
  | .ok (code, payload) => if code = 200 then payload.getD [] else []
  | .error _ => []

/-! ## `get_insights` request construction (routes + service) -/

/-- The query parameters `get_insights` sends upstream: the credential, the
fixed field-selection list, the `date_preset`, and the optional custom
`time_range`. -/
structure InsightsRequest where
  access_token : String
  fields : String
  date_preset : String
  time_range : Option (String × String)
deriving DecidableEq, Repr

/-- The fixed field-selection list of `get_insights`. -/
def insightsFields : String :=
  "date_start,date_stop,spend,impressions,clicks,ctr,cpc,cpm,reach,frequency"

/-- The service half of `get_insights`: with a date range, `date_preset` is
`"custom"` and `time_range` carries `{since: start, until: end}`; without
one, `date_preset` is `"last_30d"`. -/
def insightsServiceRequest (accessToken : String)
    (dateRange : Option (String × String)) : InsightsRequest :=
  match dateRange with
  | some (s, e) =>
      { access_token := accessToken, fields := insightsFields,
        date_preset := "custom", time_range := some (s, e) }
  | none =>
      { access_token := accessToken, fields := insightsFields,
        date_preset := "last_30d", time_range := none }

/-- The route half (`get_insights` in `meta/routes.py`): build a date range
only when `start_date and end_date` is truthy — both present and
non-empty. -/
def insightsRouteDateRange (startDate endDate : Option String) :
    Option (String × String) :=
  if truthyStr startDate ∧ truthyStr endDate then
    some (startDate.getD "", endDate.getD "")
  else none

/-- The upstream request issued by `GET /meta/insights/{object_id}` for
given optional `start_date`/`end_date` query parameters. -/
def getInsightsRequest (accessToken : String)
    (startDate endDate : Option String) : InsightsRequest :=
  insightsServiceRequest accessToken (insightsRouteDateRange startDate endDate)

/-! ## Write operations and strategy execution -/

/-- An upstream write outcome: a raised exception or a status code. -/
abbrev UpstreamWrite := Except Unit Nat

/-- `update_campaign_status`: `True` iff the upstream POST returned 200;
an exception yields `False`. Never raises. -/
def updateCampaignStatusSvc (r : UpstreamWrite) : Bool :=
  match r with
  | .ok code => code == 200
  | .error _ => false

/-- `update_campaign_budget`: same shape as `update_campaign_status`. -/
def updateCampaignBudgetSvc (r : UpstreamWrite) : Bool :=
  match r with
  | .ok code => code == 200
  | .error _ => false

/-- The action flags of an optimization strategy, as read by
`execute_strategy` via `actions.get(...)` (absent keys are falsy). -/
structure StrategyActions where
  pause_low_performing : Bool
  increase_budget : Bool
deriving DecidableEq, Repr

/-- `execute_strategy` (service): read `strategy["campaign_id"]` and
`strategy["actions"]` (a missing key raises `KeyError`, which the blanket
`except` turns into `False`); then conditionally issue the status and
budget updates, DISCARDING their boolean results, and return `True`. -/
def executeStrategySvc (campaignId : Option String)
    (actions : Option StrategyActions)
    (statusUpstream budgetUpstream : UpstreamWrite) : Bool :=
  match campaignId, actions with
  | some _, some a =>
      let _pauseResult : Option Bool :=
        if a.pause_low_performing then
          some (updateCampaignStatusSvc statusUpstream)
        else none
      let _budgetResult : Option Bool :=
        if a.increase_budget then
          some (updateCampaignBudgetSvc budgetUpstream)
        else none
      true
  | _, _ => false

/-- `POST /meta/strategies/execute`: the route calls the service and raises
a 500 when the flag is `False` (the inner `HTTPException` is re-caught by
`except Exception` and re-raised as 500). Returns the response status. -/
def executeStrategyRoute (svcSuccess : Bool) : Nat :=
  if svcSuccess then 200 else 500

/-! ## `POST /meta/campaigns/{id}/status` (`update_campaign_status` route)

The whole handler body sits in `try: ... except Exception as e: raise
HTTPException(500)`. `HTTPException` is an `Exception`, so the inner
`raise HTTPException(400, "Status is required")` is itself caught and
re-raised as a 500. -/

/-- Outcome of the route: the HTTP status of the response paired with
whether the upstream write was issued. -/
structure StatusRouteOutcome where
  httpStatus : Nat
  upstreamWriteIssued : Bool
deriving DecidableEq, Repr

/-- The `try` body of the handler: `Except.error` is a raised
`HTTPException (code, detail)`, `Except.ok` the 200 return. The `Bool`
records whether `update_campaign_status` was called. -/
def updateStatusTryBody (statusField : Option String)
    (upstream : UpstreamWrite) : Except (Nat × String) Unit × Bool :=
  if ¬ truthyStr statusField then
    (.error (400, "Status is required"), false)
  else if updateCampaignStatusSvc upstream then
    (.ok (), true)
  else
    (.error (500, "Failed to update campaign status"), true)

/-- The full handler: any exception escaping the `try` body — including the
handler's own 400 — is converted to a 500 response by the blanket
`except Exception`. -/
def updateCampaignStatusRoute (statusField : Option String)
    (upstream : UpstreamWrite) : StatusRouteOutcome :=
  match updateStatusTryBody statusField upstream with
  | (.ok _, w) => { httpStatus := 200, upstreamWriteIssued := w }
  | (.error _, w) => { httpStatus := 500, upstreamWriteIssued := w }

/-! ## `POST /auth/register` (`auth/routes.py`) -/

/-- A stored user record; only identity fields matter to the register
flow's control flow. -/
structure UserRec where
  id : String
  email : String
deriving DecidableEq, Repr

/-- Outcome of the register endpoint. -/
inductive RegisterOutcome where
  | registered (u : UserRec)
  | badRequest (detail : String)
deriving DecidableEq, Repr

/-- The existence check inside `register`'s `try` block: a raising lookup
(`Except.error`) does nothing; an existing user raises
`HTTPException(400)`. -/
def registerExistsCheck (lookup : Except Unit (Option UserRec)) :
    Except (Nat × String) Unit :=
  match lookup with
  | .error _ => .ok ()
  | .ok none => .ok ()
  | .ok (some _) => .error (400, "User with this email already exists")

/-- `register(user_data)`: the existence check runs under a bare
`except: pass`, so its outcome — including the duplicate-email
`HTTPException(400)` — is discarded, and `create_user` is always called.
The `Bool` records that the creation path was attempted. -/
def register (lookup : Except Unit (Option UserRec))
    (created : Option UserRec) : RegisterOutcome × Bool :=
  let _swallowed : Except (Nat × String) Unit := registerExistsCheck lookup
  match created with
  | some u => (.registered u, true)
  | none => (.badRequest "Failed to create user", true)

/-! ## Concrete test campaigns used by witnesses -/

/-- A low-CTR active big spender: both recommendation checks fire. -/
def bothFireCampaign : Campaign :=
  { id := "1", name := "Both Fire", status := "ACTIVE",
    objective := "CONVERSIONS", daily_budget := 100, lifetime_budget := 0,
    spend := 3000, impressions := 1000, clicks := 10, ctr := 1.0, cpc := 3.0 }

/-- A paused campaign with spend above the review threshold. -/
def pausedSpenderCampaign : Campaign :=
  { id := "2", name := "Paused Spender", status := "PAUSED",
    objective := "CONVERSIONS", daily_budget := 100, lifetime_budget := 0,
    spend := 2500, impressions := 1000, clicks := 10, ctr := 2.0, cpc := 3.0 }

/-! # Theorems -/

/-- C1 counterexample: the input "show me my campaigns and accounts"
dispatches to the accounts resource, not to campaigns — the accounts
keyword group is tested first and the text contains "account". -/
theorem c1_dispatch_example_counterexample :
    dispatch "show me my campaigns and accounts" = Resource.accounts ∧
      dispatch "show me my campaigns and accounts" ≠ Resource.campaigns := by
  refine ⟨by decide, by decide⟩

/-- C1 (amended): keyword dispatch is deterministic and selects the first
matching group in the fixed priority order accounts > campaigns >
insights/performance > adsets > ads (later groups are not evaluated once
one matches); in particular, "show me my campaigns and accounts" resolves
to the accounts resource, since the accounts group has top priority. -/
theorem c1_dispatch_priority_order :
    (∀ msg : String,
      matchesGroup (pyLower msg) accountKeywords = true →
        dispatch msg = Resource.accounts) ∧
    (∀ msg : String,
      matchesGroup (pyLower msg) accountKeywords = false →
        matchesGroup (pyLower msg) campaignKeywords = true →
          dispatch msg = Resource.campaigns) ∧
    (∀ msg : String,
      matchesGroup (pyLower msg) accountKeywords = false →
        matchesGroup (pyLower msg) campaignKeywords = false →
          matchesGroup (pyLower msg) insightKeywords = true →
            dispatch msg = Resource.insights) ∧
    (∀ msg : String,
      matchesGroup (pyLower msg) accountKeywords = false →
        matchesGroup (pyLower msg) campaignKeywords = false →
          matchesGroup (pyLower msg) insightKeywords = false →
            matchesGroup (pyLower msg) adsetKeywords = true →
              dispatch msg = Resource.adsets) ∧
    (∀ msg : String,
      matchesGroup (pyLower msg) accountKeywords = false →
        matchesGroup (pyLower msg) campaignKeywords = false →
          matchesGroup (pyLower msg) insightKeywords = false →
            matchesGroup (pyLower msg) adsetKeywords = false →
              matchesGroup (pyLower msg) adKeywords = true →
                dispatch msg = Resource.ads) ∧
    (∀ msg : String,
      matchesGroup (pyLower msg) accountKeywords = false →
        matchesGroup (pyLower msg) campaignKeywords = false →
          matchesGroup (pyLower msg) insightKeywords = false →
            matchesGroup (pyLower msg) adsetKeywords = false →
              matchesGroup (pyLower msg) adKeywords = false →
                dispatch msg = Resource.noData) ∧
    dispatch "show me my campaigns and accounts" = Resource.accounts := by
  refine ⟨?_, ?_, ?_, ?_, ?_, ?_, by decide⟩
  · intro msg h1
    simp [dispatch, h1]
  · intro msg h1 h2
    simp [dispatch, h1, h2]
  · intro msg h1 h2 h3
    simp [dispatch, h1, h2, h3]
  · intro msg h1 h2 h3 h4
    simp [dispatch, h1, h2, h3, h4]
  · intro msg h1 h2 h3 h4 h5
    simp [dispatch, h1, h2, h3, h4, h5]
  · intro msg h1 h2 h3 h4 h5
    simp [dispatch, h1, h2, h3, h4, h5]

/-- C1 witness: each priority tier of `c1_dispatch_priority_order`
instantiated at a concrete message. -/
theorem c1_dispatch_priority_order_witness :
    dispatch "list my ad accounts" = Resource.accounts ∧
    dispatch "how are my campaigns doing" = Resource.campaigns ∧
    dispatch "weekly spend trend" = Resource.insights ∧
    dispatch "tighten the targeting" = Resource.adsets ∧
    dispatch "refresh the creative" = Resource.ads ∧
    dispatch "hello there" = Resource.noData := by
  obtain ⟨t1, t2, t3, t4, t5, t6, _⟩ := c1_dispatch_priority_order
  exact ⟨t1 _ (by decide), t2 _ (by decide) (by decide),
    t3 _ (by decide) (by decide) (by decide),
    t4 _ (by decide) (by decide) (by decide) (by decide),
    t5 _ (by decide) (by decide) (by decide) (by decide) (by decide),
    t6 _ (by decide) (by decide) (by decide) (by decide) (by decide)⟩

/-- C2: the `avg_ctr` of `analyze_campaigns` divides by the list length
with no emptiness guard, so on the empty campaign list it faults
(`ZeroDivisionError`, modelled as `none`) instead of being 0; the sibling
summary `get_account_performance_summary` is guarded and yields 0 there. -/
theorem c2_analyze_avg_ctr_empty_faults :
    analyzeAvgCtr [] = none ∧
    (analyzeCampaigns []).avg_ctr = none ∧
    (accountPerformanceSummary []).average_ctr = 0 := by
  refine ⟨rfl, rfl, by decide⟩

/-- `get_ai_recommendations` is the in-order concatenation of the per-
campaign advisory lists (from any accumulator). -/
theorem getAiRecommendations_foldl_eq (campaigns : List Campaign)
    (acc : List Advisory) :
    campaigns.foldl
      (fun recommendations c =>
        let recommendations :=
          if c.ctr < 1.5 then
            recommendations ++ [Advisory.lowCtr c.name c.ctr]
          else recommendations
        let recommendations :=
          if c.spend > 2000 ∧ c.status = "ACTIVE" then
            recommendations ++ [Advisory.spendReview c.name c.spend]
          else recommendations
        recommendations)
      acc = acc ++ campaigns.flatMap campaignAdvisories := by
  induction campaigns generalizing acc with
  | nil => simp
  | cons c rest ih =>
    rw [List.foldl_cons, ih, List.flatMap_cons, ← List.append_assoc]
    congr 1
    by_cases h1 : c.ctr < 1.5 <;>
      by_cases h2 : c.spend > 2000 ∧ c.status = "ACTIVE" <;>
        simp [campaignAdvisories, h1, h2]

/-- C3: `get_ai_recommendations` processes campaigns independently in
input order (it is the flat map of the per-campaign advisories); per
campaign it emits exactly one low-CTR advisory naming that campaign iff
`ctr < 1.5`, emits a spend-review advisory when `spend > 2000` and the
status is ACTIVE, emits none for a paused campaign, and both advisories
can fire for the same campaign. -/
theorem c3_recommendations_spec :
    (∀ campaigns : List Campaign,
      getAiRecommendations campaigns =
        campaigns.flatMap campaignAdvisories) ∧
    (∀ c : Campaign, c.ctr < 1.5 →
      (campaignAdvisories c).count (Advisory.lowCtr c.name c.ctr) = 1) ∧
    (∀ c : Campaign, ¬ c.ctr < 1.5 →
      ∀ n q, Advisory.lowCtr n q ∉ campaignAdvisories c) ∧
    (∀ c : Campaign, c.spend > 2000 → c.status = "ACTIVE" →
      Advisory.spendReview c.name c.spend ∈ campaignAdvisories c) ∧
    (∀ c : Campaign, c.status = "PAUSED" →
      ∀ n s, Advisory.spendReview n s ∉ campaignAdvisories c) ∧
    (∀ c : Campaign, c.ctr < 1.5 → c.spend > 2000 → c.status = "ACTIVE" →
      campaignAdvisories c =
        [Advisory.lowCtr c.name c.ctr,
         Advisory.spendReview c.name c.spend]) := by
  refine ⟨?_, ?_, ?_, ?_, ?_, ?_⟩
  · intro campaigns
    simpa [getAiRecommendations] using
      getAiRecommendations_foldl_eq campaigns []
  · intro c h1
    by_cases h2 : c.spend > 2000 ∧ c.status = "ACTIVE" <;>
      simp [campaignAdvisories, h1, h2, List.count_cons]
  · intro c h1 n q
    by_cases h2 : c.spend > 2000 ∧ c.status = "ACTIVE" <;>
      simp [campaignAdvisories, h1, h2]
  · intro c h1 h2
    by_cases h3 : c.ctr < 1.5 <;>
      simp [campaignAdvisories, h1, h2, h3]
  · intro c h1 n s
    have h2 : ¬ (c.spend > 2000 ∧ c.status = "ACTIVE") := by
      rintro ⟨-, hact⟩
      rw [h1] at hact
      exact absurd hact (by decide)
    by_cases h3 : c.ctr < 1.5 <;> simp [campaignAdvisories, h2, h3]
  · intro c h1 h2 h3
    simp [campaignAdvisories, h1, h2, h3]

/-- C3 witness: the characterization applied to concrete campaigns — a
low-CTR active big spender triggers both advisories; the mock PAUSED
campaign with spend 1890 triggers only the low-CTR advisory. -/
theorem c3_recommendations_witness :
    getAiRecommendations [bothFireCampaign] =
      [Advisory.lowCtr "Both Fire" 1.0, Advisory.spendReview "Both Fire" 3000] ∧
    (campaignAdvisories bothFireCampaign).count
      (Advisory.lowCtr bothFireCampaign.name bothFireCampaign.ctr) = 1 ∧
    (∀ n s, Advisory.spendReview n s ∉
      campaignAdvisories pausedSpenderCampaign) ∧
    Advisory.spendReview "Both Fire" 3000 ∈
      campaignAdvisories bothFireCampaign := by
  obtain ⟨t1, t2, _, t4, t5, t6⟩ := c3_recommendations_spec
  refine ⟨?_, t2 bothFireCampaign (by norm_num [bothFireCampaign]),
    t5 pausedSpenderCampaign (by norm_num [pausedSpenderCampaign]), ?_⟩
  · have h6 := t6 bothFireCampaign (by norm_num [bothFireCampaign])
      (by norm_num [bothFireCampaign]) (by norm_num [bothFireCampaign])
    rw [t1]
    simp only [List.flatMap_cons, List.flatMap_nil, List.append_nil, h6]
    norm_num [bothFireCampaign]
  · have h := t4 bothFireCampaign (by norm_num [bothFireCampaign])
      (by norm_num [bothFireCampaign])
    simpa [bothFireCampaign] using h

/-- C4: registering with an email that already belongs to an existing user
does NOT fail with a 400 — the duplicate-email `HTTPException(400)` is
generated inside the `try` block but swallowed by the bare `except: pass`,
and `create_user` is called anyway; when the upstream sign-up succeeds the
endpoint returns the newly created user. -/
theorem c4_register_duplicate_email_not_rejected :
    register (.ok (some { id := "u-1", email := "dup@example.com" }))
        (some { id := "u-2", email := "dup@example.com" }) =
      (.registered { id := "u-2", email := "dup@example.com" }, true) ∧
    registerExistsCheck (.ok (some { id := "u-1", email := "dup@example.com" })) =
      .error (400, "User with this email already exists") := by
  exact ⟨rfl, rfl⟩

/-- C5: a campaign-status update whose body lacks (or blanks) the required
`status` field responds 500, not 400 — the handler's own
`HTTPException(400, "Status is required")` is caught by the surrounding
`except Exception` and re-raised as a 500 — although no upstream write is
issued. -/
theorem c5_missing_status_yields_500 :
    ∀ upstream : UpstreamWrite,
      updateCampaignStatusRoute none upstream =
        { httpStatus := 500, upstreamWriteIssued := false } ∧
      updateCampaignStatusRoute (some "") upstream =
        { httpStatus := 500, upstreamWriteIssued := false } ∧
      (updateStatusTryBody none upstream).1 =
        .error (400, "Status is required") := by
  intro upstream
  exact ⟨rfl, rfl, rfl⟩

/-- C6 counterexample: a strategy whose underlying status and budget
updates both fail upstream (both upstream calls raise, so both update
operations return `false`) still yields a TRUE success flag from
`execute_strategy`, because the service discards the update results. -/
theorem c6_execute_ignores_upstream_failure_counterexample :
    executeStrategySvc (some "123456789")
        (some { pause_low_performing := true, increase_budget := true })
        (.error ()) (.error ()) = true ∧
    updateCampaignStatusSvc (.error ()) = false ∧
    updateCampaignBudgetSvc (.error ()) = false := by
  exact ⟨rfl, rfl, rfl⟩

/-- C6 (amended): campaign status/budget updates return `false` rather
than raising when the upstream call fails, and the caller layer converts a
`false` flag into a 500-class response; `execute_strategy`, however,
discards the results of its underlying updates and returns `true` whenever
the strategy's `campaign_id` and `actions` fields are readable — it
returns `false` only when reading those fields raises — so a strategy
whose underlying updates fail upstream still reports success. -/
theorem c6_write_failure_policy :
    (∀ r : UpstreamWrite,
      (r = .error () ∨ ∃ code, r = .ok code ∧ code ≠ 200) →
        updateCampaignStatusSvc r = false) ∧
    (∀ r : UpstreamWrite,
      (r = .error () ∨ ∃ code, r = .ok code ∧ code ≠ 200) →
        updateCampaignBudgetSvc r = false) ∧
    executeStrategyRoute false = 500 ∧
    (∀ (s : String) (u : UpstreamWrite), s ≠ "" →
      updateCampaignStatusSvc u = false →
        updateCampaignStatusRoute (some s) u =
          { httpStatus := 500, upstreamWriteIssued := true }) ∧
    (∀ (cid : String) (a : StrategyActions) (su bu : UpstreamWrite),
      executeStrategySvc (some cid) (some a) su bu = true) ∧
    (∀ (a : Option StrategyActions) (su bu : UpstreamWrite),
      executeStrategySvc none a su bu = false) ∧
    (∀ (cid : String) (su bu : UpstreamWrite),
      executeStrategySvc (some cid) none su bu = false) := by
  refine ⟨?_, ?_, rfl, ?_, ?_, ?_, ?_⟩
  · rintro r (rfl | ⟨code, rfl, hc⟩)
    · rfl
    · simpa [updateCampaignStatusSvc] using hc
  · rintro r (rfl | ⟨code, rfl, hc⟩)
    · rfl
    · simpa [updateCampaignBudgetSvc] using hc
  · intro s u hs hu
    simp [updateCampaignStatusRoute, updateStatusTryBody, truthyStr,
      String.isEmpty_iff, hs, hu]
  · intro cid a su bu
    rfl
  · intro a su bu
    cases a <;> rfl
  · intro cid su bu
    rfl

/-- C6 witness: the amended policy at concrete inputs — a raising upstream
write yields `false` from both update operations, the status route turns a
failed upstream write into a 500 after issuing it, and `execute_strategy`
reports `true` with readable fields but `false` when `campaign_id` is
missing. -/
theorem c6_write_failure_policy_witness :
    updateCampaignStatusSvc (.ok 500) = false ∧
    updateCampaignBudgetSvc (.error ()) = false ∧
    updateCampaignStatusRoute (some "PAUSED") (.error ()) =
      { httpStatus := 500, upstreamWriteIssued := true } ∧
    executeStrategySvc (some "987654321")
      (some { pause_low_performing := false, increase_budget := true })
      (.ok 200) (.error ()) = true ∧
    executeStrategySvc none
      (some { pause_low_performing := true, increase_budget := true })
      (.ok 200) (.ok 200) = false := by
  obtain ⟨t1, t2, _, t4, t5, t6, _⟩ := c6_write_failure_policy
  exact ⟨t1 (.ok 500) (Or.inr ⟨500, rfl, by decide⟩),
    t2 (.error ()) (Or.inl rfl),
    t4 "PAUSED" (.error ()) (by decide) rfl,
    t5 "987654321" _ (.ok 200) (.error ()),
    t6 _ (.ok 200) (.ok 200)⟩

/-- C7: a `GET /meta/insights/{id}` request supplying only a start date
(and no end date) issues exactly the same upstream query as one supplying
neither — the partial range is dropped by the route's
`if start_date and end_date` guard and the service falls back to the
default trailing-30-day preset with no custom time range. -/
theorem c7_insights_start_only_is_default :
    ∀ (accessToken startDate : String),
      getInsightsRequest accessToken (some startDate) none =
        getInsightsRequest accessToken none none ∧
      (getInsightsRequest accessToken none none).date_preset = "last_30d" ∧
      (getInsightsRequest accessToken none none).time_range = none := by
  intro accessToken startDate
  refine ⟨?_, rfl, rfl⟩
  simp [getInsightsRequest, insightsRouteDateRange, truthyStr]

/-- C8: every read operation of the ads client degrades an upstream
failure — a raised exception or a non-200 status — to the empty list; the
failure never propagates to the caller. -/
theorem c8_read_ops_degrade_to_empty :
    (∀ r : UpstreamList Account, upstreamFailed r → getAdAccountsSvc r = []) ∧
    (∀ r : UpstreamList Campaign, upstreamFailed r → getCampaignsSvc r = []) ∧
    (∀ r : UpstreamList Insight, upstreamFailed r → getInsightsSvcResult r = []) ∧
    (∀ r : UpstreamList AdSet, upstreamFailed r → getAdSetsSvc r = []) ∧
    (∀ r : UpstreamList Ad, upstreamFailed r → getAdsSvc r = []) := by
  refine ⟨?_, ?_, ?_, ?_, ?_⟩ <;>
    rintro r (rfl | ⟨code, payload, rfl, hc⟩) <;>
      first
        | rfl
        | simp [getAdAccountsSvc, getCampaignsSvc, getInsightsSvcResult,
            getAdSetsSvc, getAdsSvc, hc]

/-- C8 witness: each read operation at a concrete failing upstream outcome
(a raised exception, or a 500 response even when it carries data). -/
theorem c8_read_ops_degrade_witness :
    getAdAccountsSvc (.error ()) = [] ∧
    getCampaignsSvc (.ok (500, some mockCampaigns)) = [] ∧
    getInsightsSvcResult (.ok (404, none)) = [] ∧
    getAdSetsSvc (.error ()) = [] ∧
    getAdsSvc (.ok (403, some mockAds)) = [] := by
  obtain ⟨t1, t2, t3, t4, t5⟩ := c8_read_ops_degrade_to_empty
  exact ⟨t1 _ (Or.inl rfl),
    t2 _ (Or.inr ⟨500, some mockCampaigns, rfl, by decide⟩),
    t3 _ (Or.inr ⟨404, none, rfl, by decide⟩),
    t4 _ (Or.inl rfl),
    t5 _ (Or.inr ⟨403, some mockAds, rfl, by decide⟩)⟩

/-- C9: the `campaign_performance` chart built from N campaigns is a bar
chart with exactly N labels and exactly two datasets — CTR% and spend in
major units (spend divided by 100) — each holding exactly N data points
paired positionally with the input campaigns in order. -/
theorem c9_campaign_chart_shape :
    ∀ (campaigns : List Campaign) (insights : List Insight)
      (chart : ChartSpec),
      generateChartData "campaign_performance" campaigns insights =
          some chart →
        chart.labels.length = campaigns.length ∧
        (∀ d ∈ chart.datasets, d.data.length = campaigns.length) ∧
        ∃ d0 d1, chart.datasets = [d0, d1] ∧
          d0.label = "CTR (%)" ∧ d1.label = "Spend ($)" ∧
          ∀ i (h : i < campaigns.length),
            chart.labels[i]? = some (campaigns.get ⟨i, h⟩).name ∧
            d0.data[i]? = some (campaigns.get ⟨i, h⟩).ctr ∧
            d1.data[i]? = some (((campaigns.get ⟨i, h⟩).spend : Rat) / 100) := by
  intro campaigns insights chart hEq
  unfold generateChartData at hEq
  rw [if_neg (by decide), if_pos rfl] at hEq
  simp only [Option.some.injEq] at hEq
  subst hEq
  refine ⟨by simp, ?_, ?_⟩
  · intro d hd
    simp at hd
    rcases hd with rfl | rfl <;> simp
  · refine ⟨_, _, rfl, rfl, rfl, ?_⟩
    intro i h
    refine ⟨?_, ?_, ?_⟩ <;>
      simp [List.getElem?_map, List.getElem?_eq_getElem h,
        List.get_eq_getElem]

/-- C9 witness: the chart built from the three mock campaigns has three
labels and three points per series, with the first position carrying the
first campaign's name, CTR and spend/100. -/
theorem c9_campaign_chart_shape_witness :
    ∃ chart : ChartSpec,
      generateChartData "campaign_performance" mockCampaigns [] =
          some chart ∧
      chart.labels.length = mockCampaigns.length ∧
      chart.labels[0]? = some "Summer Sale Campaign" ∧
      ∃ d0 d1, chart.datasets = [d0, d1] ∧
        d0.data.length = mockCampaigns.length ∧
        d1.data.length = mockCampaigns.length ∧
        d0.data[0]? = some (2.56 : Rat) ∧
        d1.data[0]? = some ((2450 : Rat) / 100) := by
  obtain ⟨h1, h2, d0, d1, hds, _, _, hpair⟩ :=
    c9_campaign_chart_shape mockCampaigns [] _ rfl
  obtain ⟨hl0, hd0, hd1⟩ := hpair 0 (by decide)
  refine ⟨_, rfl, h1, hl0, d0, d1, hds, ?_, ?_, hd0, ?_⟩
  · exact h2 d0 (by rw [hds]; exact List.mem_cons_self d0 [d1])
  · exact h2 d1 (by rw [hds]; simp)
  · rw [hd1]
    norm_num [mockCampaigns]

/-- C10: `call_mcp_tool` is a total function whose result never depends on
the supplied parameter dictionary (in particular not on the access token);
each of the five recognized tool names maps to its fixed mock constant,
and any unrecognized name yields the error dictionary built from the
caught `ValueError`, not a raised exception. -/
theorem c10_call_mcp_tool_constant :
    (∀ (toolName : String) (p q : McpParams),
      callMcpTool toolName p = callMcpTool toolName q) ∧
    (∀ p, callMcpTool "mcp_meta_ads_get_ad_accounts" p =
      .accounts mockAccounts) ∧
    (∀ p, callMcpTool "mcp_meta_ads_get_campaigns" p =
      .campaigns mockCampaigns) ∧
    (∀ p, callMcpTool "mcp_meta_ads_get_insights" p =
      .insights mockInsights) ∧
    (∀ p, callMcpTool "mcp_meta_ads_get_adsets" p = .adsets mockAdsets) ∧
    (∀ p, callMcpTool "mcp_meta_ads_get_ads" p = .ads mockAds) ∧
    (∀ (toolName : String) (p : McpParams),
      toolName ∉ recognizedTools →
        callMcpTool toolName p =
          .error ("Unknown MCP tool: " ++ toolName)) := by
  refine ⟨fun n p q => rfl, fun p => rfl, fun p => rfl, fun p => rfl,
    fun p => rfl, fun p => rfl, ?_⟩
  intro n p h
  simp only [recognizedTools, List.mem_cons, List.not_mem_nil, or_false,
    not_or] at h
  obtain ⟨h1, h2, h3, h4, h5⟩ := h
  simp [callMcpTool, h1, h2, h3, h4, h5]

/-- C10 witness: two different access tokens give identical results for a
recognized tool, and an unrecognized tool name gives the error value. -/
theorem c10_call_mcp_tool_constant_witness :
    callMcpTool "mcp_meta_ads_get_campaigns"
        { access_token := some "token-A", account_id := some "act_123456789",
          object_id := none } =
      callMcpTool "mcp_meta_ads_get_campaigns"
        { access_token := some "token-B", account_id := some "act_123456789",
          object_id := none } ∧
    callMcpTool "mcp_meta_ads_get_bogus"
        { access_token := some "token-A", account_id := none,
          object_id := none } =
      .error "Unknown MCP tool: mcp_meta_ads_get_bogus" := by
  obtain ⟨t1, -, -, -, -, -, t7⟩ := c10_call_mcp_tool_constant
  exact ⟨t1 _ _ _, t7 "mcp_meta_ads_get_bogus" _ (by decide)⟩

end MetaAds
